import Mathlib

/-!
Verification development for a vanilla-JS audio player widget.

Shallow embedding conventions:
* A JS number is modelled by `JSNum`: NaN, +Infinity, -Infinity, or a finite
  value carried as an exact rational.  Public-method arguments are modelled by
  the result of the `Number(...)` / `Boolean(...)` / `typeof`-string observation
  the source applies to them, since every code path factors through that
  observation.  (`-0` is not distinguished from `0`.)
* Source numeric literals are carried as exact rationals except where a claim
  depends on binary64 representation; for those the function `toDouble`
  performs IEEE-754 round-to-nearest-even for the normal range.
* The DOM control surface is presentation plumbing (spec section 1); it is
  modelled only as a presence token so that dereferences of the torn-down
  surface are observable.  The media element is modelled as a record of the
  properties the source reads and writes; its `src` property stores the
  assigned string verbatim.
* A thrown TypeError (property access on null) is `Except.error ()`; total
  functions model the source's exception-free paths.
-/

inductive JSNum where
  | nan
  | inf
  | ninf
  | fin (q : ℚ)
deriving DecidableEq

/-- `Number.isFinite` on a JS number. -/
def JSNum.isFiniteB : JSNum → Bool
  | .fin _ => true
  | _ => false

/-- `Math.min` on two JS numbers: NaN propagates. -/
def jsMin : JSNum → JSNum → JSNum
  | .nan, _ => .nan
  | _, .nan => .nan
  | .ninf, _ => .ninf
  | _, .ninf => .ninf
  | .inf, b => b
  | a, .inf => a
  | .fin p, .fin q => .fin (min p q)

/-- `Math.max` on two JS numbers: NaN propagates. -/
def jsMax : JSNum → JSNum → JSNum
  | .nan, _ => .nan
  | _, .nan => .nan
  | .inf, _ => .inf
  | _, .inf => .inf
  | .ninf, b => b
  | a, .ninf => a
  | .fin p, .fin q => .fin (max p q)

/-- JS strict equality `===` on numbers: NaN is not equal to anything. -/
def jsEqB : JSNum → JSNum → Bool
  | .fin p, .fin q => decide (p = q)
  | .inf, .inf => true
  | .ninf, .ninf => true
  | _, _ => false

/-- JS `+` on numbers. -/
def jsAdd : JSNum → JSNum → JSNum
  | .nan, _ => .nan
  | _, .nan => .nan
  | .inf, .ninf => .nan
  | .ninf, .inf => .nan
  | .inf, _ => .inf
  | _, .inf => .inf
  | .ninf, _ => .ninf
  | _, .ninf => .ninf
  | .fin p, .fin q => .fin (p + q)

/-- `clampNumber(value, min, max)` from the source: `Number` conversion is
already reflected in the `JSNum` argument; non-finite input yields the `null`
sentinel (`none`); otherwise `Math.min(max, Math.max(min, num))`. -/
def clampNumber (value : JSNum) (lo hi : ℚ) : Option ℚ :=
  match value with
  | .fin q => some (min hi (max lo q))
  | _ => none

/-- JS `String.prototype.trim`, modelled over the character list with Lean's
whitespace predicate (space, tab, CR, LF; exotic Unicode spaces are out of
scope). -/
def jsTrim (s : String) : String :=
  String.mk (((s.data.dropWhile Char.isWhitespace).reverse.dropWhile
    Char.isWhitespace).reverse)

/-- The canonical options record of the fixed-bounds variant
(`src/src/audio-player.js`).  Every numeric field is stored as an exact
rational: the only writers (`_mergeOptions` and `setOptions`) store either a
`clampNumber` success, a numeric fallback constant, or the previous value, so a
non-finite number can never be stored.  The source field `ariaLabelPrefix` is
called `ariaLabelPfx` here. -/
structure OptionsA where
  src : String
  volume : ℚ
  muted : Bool
  playbackRate : ℚ
  playbackRateMin : ℚ
  playbackRateMax : ℚ
  playbackRateStep : ℚ
  seekStep : ℚ
  allowDownload : Bool
  showTime : Bool
  theme : String
  downloadFilename : Option String
  ariaLabelPfx : String
deriving DecidableEq

/-- `DEFAULT_OPTIONS` of the fixed-bounds variant. -/
def DEFAULT_OPTIONS : OptionsA :=
  { src := ""
    volume := 100
    muted := false
    playbackRate := 1
    playbackRateMin := 1/5
    playbackRateMax := 2
    playbackRateStep := 1/20
    seekStep := 10
    allowDownload := true
    showTime := true
    theme := "auto"
    downloadFilename := none
    ariaLabelPfx := "Audio player" }

/-- A raw update object.  Each field is `none` when the key is absent.  A
present numeric field carries the `Number(...)`-converted value, a present
boolean field the `Boolean(...)`-converted value, and a present string-ish
field `some s` when the raw value is the string `s` and `none` when it is not a
string. -/
structure Patch where
  volume : Option JSNum := none
  muted : Option Bool := none
  playbackRate : Option JSNum := none
  seekStep : Option JSNum := none
  allowDownload : Option Bool := none
  playbackRateMin : Option JSNum := none
  playbackRateMax : Option JSNum := none
  playbackRateStep : Option JSNum := none
  showTime : Option Bool := none
  theme : Option (Option String) := none
  downloadFilename : Option (Option String) := none
  ariaLabelPfx : Option (Option String) := none
  src : Option (Option String) := none
deriving DecidableEq

/-- One numeric block of `setOptions`: absent key or failed clamp keeps the
current value, a successful clamp stores the clamped value. -/
def applyField (cur : ℚ) (raw : Option JSNum) (lo hi : ℚ) : ℚ :=
  match raw with
  | none => cur
  | some v =>
    match clampNumber v lo hi with
    | none => cur
    | some c => c

/-- The `theme` / `ariaLabelPrefix` block: absent key keeps the current value;
a non-string or blank value falls back to the given default; any other string
is stored trimmed. -/
def strOrDefault (raw : Option (Option String)) (cur dflt : String) : String :=
  match raw with
  | none => cur
  | some none => dflt
  | some (some s) => if jsTrim s = "" then dflt else jsTrim s

/-- The `src` block of `setOptions`: `typeof partial.src === "string" ?
partial.src : ""` when the key is present. -/
def jsStrRaw (raw : Option (Option String)) (cur : String) : String :=
  match raw with
  | none => cur
  | some (some s) => s
  | some none => ""

/-- The `downloadFilename` block: non-string or blank maps to `null`. -/
def fileOrNone (raw : Option (Option String)) (cur : Option String) :
    Option String :=
  match raw with
  | none => cur
  | some none => none
  | some (some s) => if jsTrim s = "" then none else some (jsTrim s)

/-- `setOptions`, state after the eight per-field numeric/boolean blocks
(source lines 149-207) and before the bound swap.  Note the `playbackRate`
block clamps against the bounds still stored in `next`, i.e. the previous
bounds, because the bound blocks run later. -/
def setOptionsSan (o : OptionsA) (p : Patch) : OptionsA :=
  { o with
    volume := applyField o.volume p.volume 0 100
    muted := p.muted.getD o.muted
    playbackRate :=
      applyField o.playbackRate p.playbackRate o.playbackRateMin o.playbackRateMax
    seekStep := applyField o.seekStep p.seekStep 1 120
    allowDownload := p.allowDownload.getD o.allowDownload
    playbackRateMin := applyField o.playbackRateMin p.playbackRateMin (1/5) 4
    playbackRateMax := applyField o.playbackRateMax p.playbackRateMax (1/5) 4
    playbackRateStep := applyField o.playbackRateStep p.playbackRateStep (1/100) 1 }

/-- The bound swap and re-clamp of `setOptions` (source lines 209-222): if the
sanitized minimum exceeds the maximum the two are exchanged, then the stored
rate is re-clamped into the (possibly swapped) bounds. -/
def setOptionsSwap (o : OptionsA) : OptionsA :=
  let o2 :=
    if o.playbackRateMax < o.playbackRateMin then
      { o with playbackRateMin := o.playbackRateMax
               playbackRateMax := o.playbackRateMin }
    else o
  match clampNumber (.fin o2.playbackRate) o2.playbackRateMin o2.playbackRateMax with
  | none => o2
  | some c => { o2 with playbackRate := c }

/-- The complete options transform of `setOptions(partial)` on the stored
record (the subsequent DOM application and possible reload do not change the
record further). -/
def setOptionsNext (o : OptionsA) (p : Patch) : OptionsA :=
  let a := setOptionsSwap (setOptionsSan o p)
  { a with
    showTime := p.showTime.getD a.showTime
    theme := strOrDefault p.theme a.theme DEFAULT_OPTIONS.theme
    downloadFilename := fileOrNone p.downloadFilename a.downloadFilename
    ariaLabelPfx := strOrDefault p.ariaLabelPfx a.ariaLabelPfx DEFAULT_OPTIONS.ariaLabelPfx
    src := jsStrRaw p.src a.src }

/-- `_mergeOptions(base, override)`: copy base, overlay the override's raw
values, then re-validate every field in source order.  Note the rate fallback
is the constant `1` (`?? 1`), not the base rate. -/
def mergeOptions (base : OptionsA) (ov : Patch) : OptionsA :=
  let theme := strOrDefault (some (ov.theme.getD (some base.theme))) base.theme base.theme
  let volume := (clampNumber (ov.volume.getD (.fin base.volume)) 0 100).getD base.volume
  let prMin0 :=
    (clampNumber (ov.playbackRateMin.getD (.fin base.playbackRateMin)) (1/5) 4).getD
      base.playbackRateMin
  let prMax0 :=
    (clampNumber (ov.playbackRateMax.getD (.fin base.playbackRateMax)) (1/5) 4).getD
      base.playbackRateMax
  let prStep :=
    (clampNumber (ov.playbackRateStep.getD (.fin base.playbackRateStep)) (1/100) 1).getD
      base.playbackRateStep
  let prMin := if prMax0 < prMin0 then prMax0 else prMin0
  let prMax := if prMax0 < prMin0 then prMin0 else prMax0
  let playbackRate :=
    (clampNumber (ov.playbackRate.getD (.fin base.playbackRate)) prMin prMax).getD 1
  let seekStep := (clampNumber (ov.seekStep.getD (.fin base.seekStep)) 1 120).getD base.seekStep
  { src := jsStrRaw ov.src base.src
    volume := volume
    muted := ov.muted.getD base.muted
    playbackRate := playbackRate
    playbackRateMin := prMin
    playbackRateMax := prMax
    playbackRateStep := prStep
    seekStep := seekStep
    allowDownload := ov.allowDownload.getD base.allowDownload
    showTime := ov.showTime.getD base.showTime
    theme := theme
    downloadFilename := fileOrNone (some (ov.downloadFilename.getD base.downloadFilename)) none
    ariaLabelPfx :=
      strOrDefault (some (ov.ariaLabelPfx.getD (some base.ariaLabelPfx))) base.ariaLabelPfx
        base.ariaLabelPfx }

/-- Domain of an options record as maintained by `setOptions`: numeric fields
in their declared ranges, bounds ordered, the rate inside the bounds, and a
nonempty theme string. -/
abbrev OptValidAm (o : OptionsA) : Prop :=
  0 ≤ o.volume ∧ o.volume ≤ 100 ∧
  1 ≤ o.seekStep ∧ o.seekStep ≤ 120 ∧
  1/5 ≤ o.playbackRateMin ∧ o.playbackRateMax ≤ 4 ∧
  o.playbackRateMin ≤ o.playbackRateMax ∧
  o.playbackRateMin ≤ o.playbackRate ∧ o.playbackRate ≤ o.playbackRateMax ∧
  1/100 ≤ o.playbackRateStep ∧ o.playbackRateStep ≤ 1 ∧
  o.theme ≠ ""

/-- `2 ^ s` as a rational for a signed exponent. -/
def pow2z (s : ℤ) : ℚ :=
  if 0 ≤ s then ((2 ^ s.toNat : ℕ) : ℚ) else (1 : ℚ) / ((2 ^ (-s).toNat : ℕ) : ℚ)

/-- Fuel-driven search for the scaling exponent `s` with
`2 ^ 52 ≤ q * 2 ^ s < 2 ^ 53` (for positive `q` in the binary64 normal
range). -/
def dblScale (q : ℚ) : ℤ → ℕ → ℤ
  | s, 0 => s
  | s, f + 1 =>
    if q * pow2z s < 4503599627370496 then dblScale q (s + 1) f
    else if 9007199254740992 ≤ q * pow2z s then dblScale q (s - 1) f
    else s

/-- Round a rational to the nearest integer, ties to even. -/
def roundEven (x : ℚ) : ℤ :=
  let f := ⌊x⌋
  if x - (f : ℚ) < 1/2 then f
  else if (1 : ℚ)/2 < x - (f : ℚ) then f + 1
  else if f % 2 = 0 then f else f + 1

/-- The exact rational value of the IEEE-754 binary64 double nearest to `q`
(round to nearest, ties to even), for the normal range; subnormal and overflow
handling is unnecessary for the values arising here. -/
def toDouble (q : ℚ) : ℚ :=
  if q = 0 then 0
  else
    let a := |q|
    let s := dblScale a 0 1200
    let m := roundEven (a * pow2z s)
    let r := (m : ℚ) * pow2z (-s)
    if q < 0 then -r else r

/-- Binary64 multiplication: exact product rounded back to a double. -/
def dMul (x y : ℚ) : ℚ := toDouble (x * y)

/-- Binary64 division: exact quotient rounded back to a double. -/
def dDiv (x y : ℚ) : ℚ := toDouble (x / y)

/-- `Math.round`: nearest integer, ties toward positive infinity. -/
def jsRound (x : ℚ) : ℤ := ⌊x + 1/2⌋

/-- `padStart(2, "0")` for a remainder below 100. -/
def natPad2 (n : ℕ) : String :=
  if n < 10 then "0" ++ Nat.repr n else Nat.repr n

/-- `toFixed(2)` for a nonnegative double value: the integer `n` with
`n / 100` closest to the value, ties to the larger `n`, rendered with two
decimals. -/
def toFixed2Pos (x : ℚ) : String :=
  let n := (⌊x * 100 + 1/2⌋).toNat
  Nat.repr (n / 100) ++ "." ++ natPad2 (n % 100)

/-- `toFixed(2)` of a double value: sign first, then the nonnegative case. -/
def toFixed2 (x : ℚ) : String :=
  if x < 0 then "-" ++ toFixed2Pos (-x) else toFixed2Pos x

/-- The regex replace `/\.?0+$/ → ""` of the rate-list variant: strip trailing
zeros and then a trailing dot, when the string ends in a zero. -/
def stripTrailing (s : String) : String :=
  match s.data.reverse with
  | '0' :: _ =>
    let cs := s.data.reverse.dropWhile (· == '0')
    let cs2 :=
      match cs with
      | '.' :: rest => rest
      | _ => cs
    String.mk cs2.reverse
  | _ => s

/-- `formatTime(seconds)`: `"0:00"` for non-finite or negative input, else
minutes `Math.floor(seconds / 60)` (binary64 division) and seconds
`Math.floor(seconds % 60)` (the JS remainder is exact), zero-padded. -/
def formatTime (t : JSNum) : String :=
  match t with
  | .fin q =>
    if q < 0 then "0:00"
    else
      let mins := (⌊dDiv q 60⌋).toNat
      let secs := (⌊q - 60 * ((⌊q / 60⌋ : ℤ) : ℚ)⌋).toNat
      Nat.repr mins ++ ":" ++ natPad2 secs
  | _ => "0:00"

/-- `formatRate` of the fixed-bounds variant: round to two decimals via
`Math.round(rate * 100) / 100` in binary64, render with `toFixed(2)` and an
`x` suffix (trailing zeros kept). -/
def formatRateA (r : JSNum) : String :=
  match r with
  | .fin q => toFixed2 (dDiv ((jsRound (dMul q 100) : ℤ) : ℚ) 100) ++ "x"
  | _ => "1x"

/-- `formatRate` of the rate-list variant: as `formatRateA` but trailing zeros
(and a then-dangling dot) are stripped before the suffix. -/
def formatRateB (r : JSNum) : String :=
  match r with
  | .fin q => stripTrailing (toFixed2 (dDiv ((jsRound (dMul q 100) : ℤ) : ℚ) 100)) ++ "x"
  | _ => "1x"

/-- The binary64 double denoted by the source literal `1.005`. -/
def jsLit1005 : ℚ := toDouble (201/200)

/-- Domain actually guaranteed by `_mergeOptions`: as `OptValidAm`, except
that the rate may instead be the fallback constant 1 (possibly outside the
bounds) when the overriding rate did not convert to a finite number. -/
abbrev OptValidMerge (o : OptionsA) : Prop :=
  0 ≤ o.volume ∧ o.volume ≤ 100 ∧
  1 ≤ o.seekStep ∧ o.seekStep ≤ 120 ∧
  1/5 ≤ o.playbackRateMin ∧ o.playbackRateMax ≤ 4 ∧
  o.playbackRateMin ≤ o.playbackRateMax ∧
  ((o.playbackRateMin ≤ o.playbackRate ∧ o.playbackRate ≤ o.playbackRateMax) ∨
    o.playbackRate = 1) ∧
  1/100 ≤ o.playbackRateStep ∧ o.playbackRateStep ≤ 1 ∧
  o.theme ≠ ""

/-- A JS value as observed by `on`: a function (identified by reference) or a
non-function value. -/
inductive JSVal where
  | func (id : ℕ)
  | nonFunc (id : ℕ)
deriving DecidableEq

/-- `typeof v === "function"`. -/
def JSVal.isFunc : JSVal → Bool
  | .func _ => true
  | .nonFunc _ => false

/-- The listener registry `this._events`: a `Map` from event name to a `Set`
of handlers, both preserving insertion order. -/
abbrev Registry := List (String × List JSVal)

/-- The `EVENTS` catalogue. -/
def EVENTS : List String :=
  ["ready", "play", "pause", "ended", "timeupdate", "seek", "ratechange",
   "volumechange", "mutechange", "optionschange", "download", "error",
   "srcchange"]

/-- `Map.get`: the first entry with the given key. -/
def regGet : Registry → String → Option (List JSVal)
  | [], _ => none
  | (n, hs) :: t, name => if n = name then some hs else regGet t name

/-- `Map.set`: replace the entry in place, or append a new entry. -/
def regSet : Registry → String → List JSVal → Registry
  | [], name, hs => [(name, hs)]
  | (n, h0) :: t, name, hs =>
    if n = name then (n, hs) :: t else (n, h0) :: regSet t name hs

/-- `on(name, handler)`: no-op unless the name is catalogued and the handler a
function; otherwise add the handler to the name's set (`Set.add` keeps a
reference-equal duplicate out). -/
def onReg (r : Registry) (name : String) (h : JSVal) : Registry :=
  if ¬ name ∈ EVENTS ∨ h.isFunc = false then r
  else
    match regGet r name with
    | none => regSet r name [h]
    | some hs => if h ∈ hs then r else regSet r name (hs ++ [h])

/-- The dispatch order of `emit(name)`: the handlers in the name's set in
insertion order; an absent or empty set dispatches nothing. -/
def emitHandlers (r : Registry) (name : String) : List JSVal :=
  (regGet r name).getD []

/-- The `forEach` body of `emit` with its try/catch: `env h = true` means the
handler throws when invoked; the invocation is recorded, the exception caught
and logged, and the loop continues.  Returns (invocation sequence, logged
throwers); totality of the function models that `emit` never propagates a
handler exception to its caller. -/
def runHandlers (env : JSVal → Bool) : List JSVal → List JSVal × List JSVal
  | [] => ([], [])
  | h :: t =>
    let rest := runHandlers env t
    (h :: rest.1, (if env h then [h] else []) ++ rest.2)

/-- Occurrences of a handler in an invocation sequence. -/
def countOcc (h : JSVal) : List JSVal → ℕ
  | [] => 0
  | x :: t => (if x = h then 1 else 0) + countOcc h t

/-- Per-load track metadata, processed. -/
structure Meta where
  title : String
  filename : Option String
  allowDownload : Option Bool
deriving DecidableEq

/-- The raw `meta` argument of `load`: string-ish fields are `some s` when the
raw value is the string `s`, the boolean override is `some b` when the raw
value is the boolean `b`. -/
structure MetaArg where
  title : Option String := none
  filename : Option String := none
  allowDownload : Option Bool := none
deriving DecidableEq

/-- The metadata replacement performed by `load` (source lines 290-297). -/
def procMeta (m : MetaArg) : Meta :=
  { title := (m.title.map jsTrim).getD ""
    filename :=
      match m.filename with
      | some s => if jsTrim s = "" then none else some (jsTrim s)
      | none => none
    allowDownload := m.allowDownload }

/-- The native media element as the source reads and writes it.  `src` stores
the assigned string verbatim. -/
structure MediaState where
  src : String
  currentTime : JSNum
  duration : JSNum
  volume : ℚ
  muted : Bool
  playbackRate : ℚ
  paused : Bool
deriving DecidableEq

/-- Controller state: `audio = none` and `domPresent = false` model the
nulled-out handles after `destroy()`; `listeners` counts the registered DOM
listeners; the per-frame progress loop handle is `rafId`. -/
structure PlayerState where
  destroyed : Bool
  events : Registry
  listeners : ℕ
  rafId : Option ℕ
  meta : Meta
  options : OptionsA
  audio : Option MediaState
  domPresent : Bool
deriving DecidableEq

/-- Events the modelled methods emit synchronously at their own call site. -/
inductive EmitEv where
  | seekEv (f t : JSNum)
  | srcchangeEv (src : String)
deriving DecidableEq

/-- `play()`: destroyed-guarded; otherwise the native `play()` clears the
paused flag (its asynchronous resolution is out of scope). -/
def playM (s : PlayerState) : Except Unit (PlayerState × List EmitEv) :=
  if s.destroyed then .ok (s, [])
  else
    match s.audio with
    | none => .error ()
    | some a => .ok ({ s with audio := some { a with paused := false } }, [])

/-- `pause()`: destroyed-guarded; otherwise the native `pause()` sets the
paused flag. -/
def pauseM (s : PlayerState) : Except Unit (PlayerState × List EmitEv) :=
  if s.destroyed then .ok (s, [])
  else
    match s.audio with
    | none => .error ()
    | some a => .ok ({ s with audio := some { a with paused := true } }, [])

/-- `toggle()`: reads `this._audio.paused` first (a TypeError when the media
element handle is null), then dispatches. -/
def toggleM (s : PlayerState) : Except Unit (PlayerState × List EmitEv) :=
  match s.audio with
  | none => .error ()
  | some a => if a.paused then playM s else pauseM s

/-- `seek(seconds)` (source lines 336-344): reads `this._audio.duration`
(TypeError on a null handle), no-ops when the duration is not finite, clamps
via `Math.max(0, Math.min(duration, seconds))`, no-ops when the target
strictly equals the current position, else writes the position, refreshes the
progress display and emits `seek`.  A thrown error abandons the result
state. -/
def seekM (s : PlayerState) (t : JSNum) : Except Unit (PlayerState × List EmitEv) :=
  match s.audio with
  | none => .error ()
  | some a =>
    if a.duration.isFiniteB = false then .ok (s, [])
    else
      let f := a.currentTime
      let t2 := jsMax (.fin 0) (jsMin a.duration t)
      if jsEqB f t2 then .ok (s, [])
      else if s.domPresent = false then .error ()
      else .ok ({ s with audio := some { a with currentTime := t2 } }, [.seekEv f t2])

/-- `seekBy(delta)`: converts the delta, no-ops (before any media access) when
it is not finite, then seeks from `this._audio.currentTime`. -/
def seekByM (s : PlayerState) (d : JSNum) : Except Unit (PlayerState × List EmitEv) :=
  if d.isFiniteB = false then .ok (s, [])
  else
    match s.audio with
    | none => .error ()
    | some a => seekM s (jsAdd a.currentTime d)

/-- `setPlaybackRate(rate)`: clamp into the stored bounds, silent no-op on the
null sentinel, else write the media element's rate. -/
def setPlaybackRateM (s : PlayerState) (r : JSNum) :
    Except Unit (PlayerState × List EmitEv) :=
  match clampNumber r s.options.playbackRateMin s.options.playbackRateMax with
  | none => .ok (s, [])
  | some v =>
    match s.audio with
    | none => .error ()
    | some a => .ok ({ s with audio := some { a with playbackRate := v } }, [])

/-- `setVolume(volume0to100)` (source lines 362-367): clamp into [0, 100],
silent no-op on the null sentinel (before any media access), else write
`value / 100` to the element volume and clear the muted flag when the clamped
value is positive while the element is muted. -/
def setVolumeM (s : PlayerState) (v : JSNum) :
    Except Unit (PlayerState × List EmitEv) :=
  match clampNumber v 0 100 with
  | none => .ok (s, [])
  | some c =>
    match s.audio with
    | none => .error ()
    | some a =>
      let a1 : MediaState :=
        { a with volume := c / 100,
                 muted := if 0 < c ∧ a.muted then false else a.muted }
      .ok ({ s with audio := some a1 }, [])

/-- `mute()`: unguarded write of the element's muted flag. -/
def muteM (s : PlayerState) : Except Unit (PlayerState × List EmitEv) :=
  match s.audio with
  | none => .error ()
  | some a => .ok ({ s with audio := some { a with muted := true } }, [])

/-- `unmute()`: unguarded clear of the element's muted flag. -/
def unmuteM (s : PlayerState) : Except Unit (PlayerState × List EmitEv) :=
  match s.audio with
  | none => .error ()
  | some a => .ok ({ s with audio := some { a with muted := false } }, [])

/-- `toggleMute()`: unguarded toggle of the element's muted flag. -/
def toggleMuteM (s : PlayerState) : Except Unit (PlayerState × List EmitEv) :=
  match s.audio with
  | none => .error ()
  | some a => .ok ({ s with audio := some { a with muted := ¬ a.muted } }, [])

/-- `destroy()` (source lines 381-399): guarded by the destroyed flag; tears
down the progress loop, the DOM listeners, the media element handle, the
control surface and the listener registry.  Emits nothing. -/
def destroyM (s : PlayerState) : PlayerState × List EmitEv :=
  if s.destroyed then (s, [])
  else
    ({ s with destroyed := true, rafId := none, listeners := 0,
              audio := none, domPresent := false, events := [] }, [])

/-- The state reached by the non-trivial branch of `load` (source lines
286-312): pause, reset the element for the new source (duration becomes
unknown, position resets), push the source into the options record and the
element, re-apply rate/volume/mute from the options, replace the metadata
wholesale.  `_updateRateUI` writes `audio.playbackRate || options.playbackRate`
back into the options record. -/
def loadCore (s : PlayerState) (a : MediaState) (str : String) (m : MetaArg) :
    PlayerState :=
  let o := s.options
  let a1 : MediaState :=
    { a with paused := true, src := str, currentTime := .fin 0,
             duration := .nan, playbackRate := o.playbackRate,
             volume := o.volume / 100, muted := o.muted }
  let o1 :=
    { o with src := str,
             playbackRate :=
               if a1.playbackRate = 0 then o.playbackRate else a1.playbackRate }
  { s with audio := some a1, options := o1, rafId := none, meta := procMeta m }

/-- `load(src, meta, previousSrc)` (source lines 282-317): no-op for an empty
or non-string source; otherwise capture the previous source (the explicit
override, else the element's `src`), perform the `loadCore` transition, then
emit `srcchange` exactly when the new source differs from the previous one. -/
def loadM (s : PlayerState) (srcArg : Option String) (m : MetaArg)
    (prevOverride : Option String) : Except Unit (PlayerState × List EmitEv) :=
  match srcArg with
  | none => .ok (s, [])
  | some str =>
    if str = "" then .ok (s, [])
    else
      match s.audio with
      | none => .error ()
      | some a =>
        if s.domPresent = false then .error ()
        else
          let previous := prevOverride.getD a.src
          let s1 := loadCore s a str m
          if str = previous then .ok (s1, []) else .ok (s1, [.srcchangeEv str])

/-- Reachability invariant used for the destroy claim: once the destroyed flag
is set the media element handle has been nulled out. -/
abbrev DInv (s : PlayerState) : Prop := s.destroyed = true → s.audio = none

/-- Empty processed metadata. -/
def emptyMeta : Meta := { title := "", filename := none, allowDownload := none }

/-- A concrete live media element used by the destroy claim. -/
def c3Media : MediaState :=
  { src := "", currentTime := .fin 0, duration := .nan, volume := 1,
    muted := false, playbackRate := 1, paused := true }

/-- A concrete live controller state used by the destroy claim. -/
def c3State : PlayerState :=
  { destroyed := false, events := [], listeners := 2, rafId := none,
    meta := emptyMeta, options := DEFAULT_OPTIONS, audio := some c3Media,
    domPresent := true }

/-- A concrete media element with a loaded source, used by the load claim. -/
def c4Media : MediaState :=
  { src := "old.mp3", currentTime := .fin 0, duration := .fin 30, volume := 1,
    muted := false, playbackRate := 1, paused := true }

/-- A concrete controller state used by the load claim. -/
def c4State : PlayerState :=
  { destroyed := false, events := [], listeners := 2, rafId := none,
    meta := emptyMeta, options := DEFAULT_OPTIONS, audio := some c4Media,
    domPresent := true }

/-- A concrete media element with known duration, used by the seek claim. -/
def c5Media : MediaState :=
  { src := "a.mp3", currentTime := .fin 0, duration := .fin 10, volume := 1,
    muted := false, playbackRate := 1, paused := false }

/-- A concrete controller state used by the seek claim. -/
def c5State : PlayerState :=
  { destroyed := false, events := [], listeners := 2, rafId := none,
    meta := emptyMeta, options := DEFAULT_OPTIONS, audio := some c5Media,
    domPresent := true }

/-- A concrete muted media element, used by the volume claim. -/
def c6Media : MediaState :=
  { src := "a.mp3", currentTime := .fin 0, duration := .fin 10, volume := 0,
    muted := true, playbackRate := 1, paused := true }

/-- A concrete controller state used by the volume claim. -/
def c6State : PlayerState :=
  { destroyed := false, events := [], listeners := 2, rafId := none,
    meta := emptyMeta, options := DEFAULT_OPTIONS, audio := some c6Media,
    domPresent := true }

/-- Concrete update setting an off-catalogue theme string, for the domain
claim. -/
def c1ThemePatch : Patch := { theme := some (some "purple") }

/-- Concrete constructor options with a narrowed minimum bound and a
non-convertible rate, for the domain claim. -/
def c1RatePatch : Patch :=
  { playbackRateMin := some (.fin 3), playbackRate := some .nan }

/-- Concrete update raising only the minimum bound above the maximum, for the
swap claim. -/
def c2Patch : Patch := { playbackRateMin := some (.fin 3) }

theorem regGet_regSet_self (r : Registry) (n : String) (hs : List JSVal) :
    regGet (regSet r n hs) n = some hs := by
  induction r with
  | nil => simp [regSet, regGet]
  | cons p t ih =>
    obtain ⟨pn, ph⟩ := p
    by_cases hpn : pn = n
    · simp [regSet, hpn, regGet]
    · simp [regSet, hpn, regGet, ih]

theorem regGet_entry_mem {r : Registry} {n : String} {hs : List JSVal}
    (h : regGet r n = some hs) : (n, hs) ∈ r := by
  induction r with
  | nil => simp [regGet] at h
  | cons p t ih =>
    obtain ⟨pn, ph⟩ := p
    by_cases hpn : pn = n
    · subst hpn
      simp [regGet] at h
      subst h
      exact List.mem_cons_self _ _
    · simp [regGet, hpn] at h
      exact List.mem_cons_of_mem _ (ih h)

theorem regSet_mem {r : Registry} {n : String} {l : List JSVal}
    {p : String × List JSVal} (h : p ∈ regSet r n l) : p = (n, l) ∨ p ∈ r := by
  induction r with
  | nil =>
    simp [regSet] at h
    exact Or.inl h
  | cons q t ih =>
    obtain ⟨qn, qh⟩ := q
    by_cases hqn : qn = n
    · subst hqn
      simp [regSet] at h
      rcases h with h | h
      · exact Or.inl (by simp [h])
      · exact Or.inr (List.mem_cons_of_mem _ h)
    · simp [regSet, hqn] at h
      rcases h with h | h
      · exact Or.inr (by simp [h])
      · rcases ih h with h2 | h2
        · exact Or.inl h2
        · exact Or.inr (List.mem_cons_of_mem _ h2)

theorem regGet_none_of_unknown {r : Registry} {name : String}
    (hk : ∀ p ∈ r, p.1 ∈ EVENTS) (hn : ¬ name ∈ EVENTS) :
    regGet r name = none := by
  induction r with
  | nil => rfl
  | cons p t ih =>
    obtain ⟨pn, ph⟩ := p
    have hpn : pn ∈ EVENTS := (hk _ (List.mem_cons_self _ _))
    have hne : pn ≠ name := fun he => hn (he ▸ hpn)
    simpa [regGet, hne] using ih (fun q hq => hk q (List.mem_cons_of_mem _ hq))

theorem runHandlers_fst (env : JSVal → Bool) (l : List JSVal) :
    (runHandlers env l).1 = l := by
  induction l with
  | nil => rfl
  | cons h t ih => simp [runHandlers, ih]

theorem runHandlers_snd (env : JSVal → Bool) (l : List JSVal) :
    (runHandlers env l).2 = l.filter env := by
  induction l with
  | nil => rfl
  | cons h t ih =>
    by_cases he : env h <;> simp [runHandlers, ih, List.filter, he]

theorem countOcc_eq_zero {h : JSVal} {l : List JSVal} (hm : ¬ h ∈ l) :
    countOcc h l = 0 := by
  induction l with
  | nil => rfl
  | cons x t ih =>
    have hx : x ≠ h := fun he => hm (he ▸ List.mem_cons_self _ _)
    have ht : ¬ h ∈ t := fun he => hm (List.mem_cons_of_mem _ he)
    simp [countOcc, hx, ih ht]

theorem countOcc_append (h : JSVal) (l1 l2 : List JSVal) :
    countOcc h (l1 ++ l2) = countOcc h l1 + countOcc h l2 := by
  induction l1 with
  | nil => simp [countOcc]
  | cons x t ih => simp [countOcc, ih]; ring

theorem countOcc_eq_one {h : JSVal} {l : List JSVal} (hn : l.Nodup)
    (hm : h ∈ l) : countOcc h l = 1 := by
  induction l with
  | nil => simp at hm
  | cons x t ih =>
    rcases List.mem_cons.mp hm with he | ht
    · subst he
      have : ¬ h ∈ t := (List.nodup_cons.mp hn).1
      simp [countOcc, countOcc_eq_zero this]
    · have hx : x ≠ h := by
        intro he
        exact (List.nodup_cons.mp hn).1 (he ▸ ht)
      simp [countOcc, hx, ih (List.nodup_cons.mp hn).2 ht]

theorem onReg_invalid {r : Registry} {name : String} {h : JSVal}
    (hbad : ¬ name ∈ EVENTS ∨ h.isFunc = false) : onReg r name h = r := by
  unfold onReg
  rw [if_pos hbad]

theorem onReg_new {r : Registry} {name : String} {h : JSVal}
    (hname : name ∈ EVENTS) (hfun : h.isFunc = true)
    (hg : regGet r name = none) : onReg r name h = regSet r name [h] := by
  unfold onReg
  rw [if_neg (by simp [hname, hfun]), hg]

theorem onReg_already {r : Registry} {name : String} {h : JSVal}
    {hs : List JSVal} (hg : regGet r name = some hs) (hh : h ∈ hs) :
    onReg r name h = r := by
  unfold onReg
  by_cases hbad : ¬ name ∈ EVENTS ∨ h.isFunc = false
  · rw [if_pos hbad]
  · rw [if_neg hbad, hg]
    simp [hh]

theorem onReg_add {r : Registry} {name : String} {h : JSVal}
    {hs : List JSVal} (hname : name ∈ EVENTS) (hfun : h.isFunc = true)
    (hg : regGet r name = some hs) (hh : ¬ h ∈ hs) :
    onReg r name h = regSet r name (hs ++ [h]) := by
  unfold onReg
  rw [if_neg (by simp [hname, hfun]), hg]
  simp [hh]

/-- Claim C7 (confirmed): handler registration is idempotent — for every
catalogued event name and function handler, a second `on(e, h)` leaves the
listener registry unchanged, and an emission of `e` after the double
registration invokes `h` exactly once (for any behavior of the handlers). -/
theorem claim7_on_idem (r : Registry) (e : String) (h : JSVal)
    (he : e ∈ EVENTS) (hf : h.isFunc = true)
    (hwf : ∀ p ∈ r, (p.2 : List JSVal).Nodup) :
    onReg (onReg r e h) e h = onReg r e h ∧
    ∀ env, countOcc h
      (runHandlers env (emitHandlers (onReg (onReg r e h) e h) e)).1 = 1 := by
  cases hg : regGet r e with
  | none =>
    have hon : onReg r e h = regSet r e [h] := onReg_new he hf hg
    have h1 : regGet (onReg r e h) e = some [h] := by
      rw [hon]
      exact regGet_regSet_self r e [h]
    have h2 : onReg (onReg r e h) e h = onReg r e h :=
      onReg_already h1 (List.mem_singleton.mpr rfl)
    refine ⟨h2, fun env => ?_⟩
    rw [h2, runHandlers_fst, emitHandlers, h1]
    simp [countOcc]
  | some hs =>
    have hnd : hs.Nodup := hwf _ (regGet_entry_mem hg)
    by_cases hh : h ∈ hs
    · have hon : onReg r e h = r := onReg_already hg hh
      have h2 : onReg (onReg r e h) e h = onReg r e h := by
        rw [hon]
        exact hon
      refine ⟨h2, fun env => ?_⟩
      rw [h2, hon, runHandlers_fst, emitHandlers, hg]
      simpa using countOcc_eq_one hnd hh
    · have hon : onReg r e h = regSet r e (hs ++ [h]) := onReg_add he hf hg hh
      have h1 : regGet (onReg r e h) e = some (hs ++ [h]) := by
        rw [hon]
        exact regGet_regSet_self r e (hs ++ [h])
      have h2 : onReg (onReg r e h) e h = onReg r e h :=
        onReg_already h1 (List.mem_append.mpr (Or.inr (List.mem_singleton.mpr rfl)))
      refine ⟨h2, fun env => ?_⟩
      rw [h2, runHandlers_fst, emitHandlers, h1]
      simp [countOcc_append, countOcc_eq_zero hh, countOcc]

/-- Witness for C7 at the empty registry, the event "play" and a concrete
function handler. -/
theorem claim7_on_idem_wit :
    ("play" ∈ EVENTS ∧ JSVal.isFunc (.func 0) = true) ∧
    (onReg (onReg [] "play" (.func 0)) "play" (.func 0) =
        onReg [] "play" (.func 0) ∧
      ∀ env, countOcc (.func 0)
        (runHandlers env (emitHandlers
          (onReg (onReg [] "play" (.func 0)) "play" (.func 0)) "play")).1 = 1) :=
  ⟨⟨by decide, by decide⟩,
    claim7_on_idem [] "play" (.func 0) (by decide) (by decide)
      (fun p hp => nomatch hp)⟩

/-- Claim C8 (confirmed): when some handler registered for the emitted event
throws, the try/catch inside the dispatch loop still invokes every registered
handler in order, logs exactly the throwing ones, and `emit` returns normally
(the dispatch function is total, so no exception reaches the emitting call
site). -/
theorem claim8_emit_isolated (r : Registry) (e : String) (env : JSVal → Bool)
    (_hthrow : ∃ h ∈ emitHandlers r e, env h = true) :
    (runHandlers env (emitHandlers r e)).1 = emitHandlers r e ∧
    (runHandlers env (emitHandlers r e)).2 = (emitHandlers r e).filter env :=
  ⟨runHandlers_fst env _, runHandlers_snd env _⟩

/-- Witness for C8: a registry with two handlers for "play" of which the first
throws; both are invoked. -/
theorem claim8_emit_isolated_wit :
    (∃ h ∈ emitHandlers [("play", [JSVal.func 0, JSVal.func 1])] "play",
      (fun v => v = JSVal.func 0) h = true) ∧
    (runHandlers (fun v => v = JSVal.func 0)
        (emitHandlers [("play", [JSVal.func 0, JSVal.func 1])] "play")).1 =
      emitHandlers [("play", [JSVal.func 0, JSVal.func 1])] "play" :=
  ⟨⟨JSVal.func 0, by simp [emitHandlers, regGet], by simp⟩,
    (claim8_emit_isolated [("play", [JSVal.func 0, JSVal.func 1])] "play"
      (fun v => v = JSVal.func 0)
      ⟨JSVal.func 0, by simp [emitHandlers, regGet], by simp⟩).1⟩

/-- Claim C10 (confirmed): `on(name, handler)` is a silent no-op when the name
is not catalogued or the handler is not a function; consequently a registry
whose entries map catalogued names to function handlers keeps that shape under
`on`, and an emission under an unknown name dispatches nothing, before or
after such a registration attempt. -/
theorem claim10_on_valid (r : Registry) (name : String) (h : JSVal) :
    ((¬ name ∈ EVENTS ∨ h.isFunc = false) → onReg r name h = r) ∧
    ((∀ p ∈ r, p.1 ∈ EVENTS ∧ ∀ v ∈ p.2, v.isFunc = true) →
      (∀ p ∈ onReg r name h, p.1 ∈ EVENTS ∧ ∀ v ∈ p.2, v.isFunc = true) ∧
      (¬ name ∈ EVENTS → emitHandlers r name = [] ∧
        emitHandlers (onReg r name h) name = [])) := by
  constructor
  · exact onReg_invalid
  · intro hvr
    constructor
    · intro p hp
      by_cases hguard : ¬ name ∈ EVENTS ∨ h.isFunc = false
      · rw [onReg_invalid hguard] at hp
        exact hvr p hp
      · push_neg at hguard
        obtain ⟨hname, hfun0⟩ := hguard
        have hfun : h.isFunc = true := by
          cases hv : h.isFunc
          · exact absurd hv hfun0
          · rfl
        cases hg : regGet r name with
        | none =>
          rw [onReg_new hname hfun hg] at hp
          rcases regSet_mem hp with hpe | hpr
          · subst hpe
            refine ⟨hname, fun v hv => ?_⟩
            simp at hv
            subst hv
            exact hfun
          · exact hvr p hpr
        | some hs =>
          by_cases hh : h ∈ hs
          · rw [onReg_already hg hh] at hp
            exact hvr p hp
          · rw [onReg_add hname hfun hg hh] at hp
            rcases regSet_mem hp with hpe | hpr
            · subst hpe
              refine ⟨hname, fun v hv => ?_⟩
              rcases List.mem_append.mp hv with hv1 | hv2
              · exact (hvr _ (regGet_entry_mem hg)).2 v hv1
              · simp at hv2
                subst hv2
                exact hfun
            · exact hvr p hpr
    · intro hunk
      have hn : regGet r name = none :=
        regGet_none_of_unknown (fun p hp => (hvr p hp).1) hunk
      rw [onReg_invalid (Or.inl hunk)]
      simp [emitHandlers, hn]

/-- Witness for C10 at the empty registry and the unknown name "bogus". -/
theorem claim10_on_valid_wit :
    onReg [] "bogus" (JSVal.func 0) = [] ∧
    (emitHandlers [] "bogus" = [] ∧
      emitHandlers (onReg [] "bogus" (JSVal.func 0)) "bogus" = []) :=
  ⟨(claim10_on_valid [] "bogus" (JSVal.func 0)).1 (Or.inl (by decide)),
    ((claim10_on_valid [] "bogus" (JSVal.func 0)).2
      (fun p hp => nomatch hp)).2 (by decide)⟩

/-- Claim C3 (corrected): `destroy()` is idempotent — a second call returns
with the state unchanged, performs no further teardown and emits nothing —
and after `destroy()` the two flag-guarded methods `play()` and `pause()` are
no-ops that raise nothing and emit nothing; the remaining playback-affecting
methods (`toggle`, `seek`, `seekBy` with a finite delta, `setPlaybackRate` and
`setVolume` with a finite argument, `mute`, `unmute`, `toggleMute`) read or
write the nulled-out media element handle and raise a TypeError (emitting no
event) instead of no-oping. -/
theorem claim3_destroy (s : PlayerState) (hinv : DInv s) :
    destroyM (destroyM s).1 = ((destroyM s).1, []) ∧
    (destroyM s).2 = [] ∧
    playM (destroyM s).1 = .ok ((destroyM s).1, []) ∧
    pauseM (destroyM s).1 = .ok ((destroyM s).1, []) ∧
    toggleM (destroyM s).1 = .error () ∧
    muteM (destroyM s).1 = .error () ∧
    unmuteM (destroyM s).1 = .error () ∧
    toggleMuteM (destroyM s).1 = .error () ∧
    (∀ t, seekM (destroyM s).1 t = .error ()) ∧
    (∀ d, d.isFiniteB = true → seekByM (destroyM s).1 d = .error ()) ∧
    (∀ rv, rv.isFiniteB = true → setPlaybackRateM (destroyM s).1 rv = .error ()) ∧
    (∀ v, v.isFiniteB = true → setVolumeM (destroyM s).1 v = .error ()) := by
  have hdes : (destroyM s).1.destroyed = true := by
    by_cases hd : s.destroyed <;> simp [destroyM, hd]
  have haud : (destroyM s).1.audio = none := by
    by_cases hd : s.destroyed
    · simpa [destroyM, hd] using hinv hd
    · simp [destroyM, hd]
  refine ⟨?_, ?_, ?_, ?_, ?_, ?_, ?_, ?_, ?_, ?_, ?_, ?_⟩
  · have : ∀ s2 : PlayerState, s2.destroyed = true → destroyM s2 = (s2, []) := by
      intro s2 h2
      unfold destroyM
      rw [if_pos h2]
    exact this _ hdes
  · by_cases hd : s.destroyed <;> simp [destroyM, hd]
  · simp [playM, hdes]
  · simp [pauseM, hdes]
  · simp [toggleM, haud]
  · simp [muteM, haud]
  · simp [unmuteM, haud]
  · simp [toggleMuteM, haud]
  · intro t
    simp [seekM, haud]
  · intro d hd
    cases d <;> simp_all [seekByM, haud, JSNum.isFiniteB]
  · intro rv hrv
    cases rv <;> simp_all [setPlaybackRateM, clampNumber, haud, JSNum.isFiniteB]
  · intro v hv
    cases v <;> simp_all [setVolumeM, clampNumber, haud, JSNum.isFiniteB]

/-- Witness for C3 at a concrete live state. -/
theorem claim3_destroy_wit :
    DInv c3State ∧ destroyM (destroyM c3State).1 = ((destroyM c3State).1, []) :=
  ⟨(fun h => nomatch h), (claim3_destroy c3State (fun h => nomatch h)).1⟩

/-- Counterexample for C3 as stated: after `destroy()`, `mute()` and
`toggle()` are not exception-free no-ops — both raise a TypeError by accessing
the nulled-out media element handle. -/
theorem claim3_destroy_cex :
    muteM (destroyM c3State).1 = .error () ∧
    toggleM (destroyM c3State).1 = .error () := by
  constructor <;> with_unfolding_all rfl

/-- Claim C4 (confirmed): `load(source, meta)` is a no-op with no state change
and no event when the source is empty or not a string; otherwise it stores the
source into the options record and the media element and emits `srcchange`
with the new source as payload exactly when the new string differs from the
immediately preceding source string (plain string comparison), so a second
`load` with the identical string emits nothing. -/
theorem claim4_load (s : PlayerState) (a : MediaState) (m : MetaArg)
    (str : String) (ha : s.audio = some a) (hd : s.domPresent = true) :
    loadM s none m none = .ok (s, []) ∧
    loadM s (some "") m none = .ok (s, []) ∧
    (str ≠ "" →
      loadM s (some str) m none =
        .ok (loadCore s a str m,
          if str = a.src then [] else [.srcchangeEv str]) ∧
      (loadCore s a str m).options.src = str ∧
      (∃ a1, (loadCore s a str m).audio = some a1 ∧ a1.src = str) ∧
      ∀ m2, loadM (loadCore s a str m) (some str) m2 none =
        .ok (loadCore (loadCore s a str m)
          { a with paused := true, src := str, currentTime := .fin 0,
                   duration := .nan, playbackRate := s.options.playbackRate,
                   volume := s.options.volume / 100, muted := s.options.muted }
          str m2, [])) := by
  refine ⟨rfl, rfl, fun hne => ⟨?_, rfl, ⟨_, rfl, rfl⟩, fun m2 => ?_⟩⟩
  · simp only [loadM, ha, hd]
    rw [if_neg hne]
    simp [Option.getD]
    split <;> rfl
  · simp only [loadM, loadCore, hd]
    rw [if_neg hne]
    simp [Option.getD]

/-- Witness for C4: loading "new.mp3" over a state whose element holds
"old.mp3" emits `srcchange`, and an immediately repeated identical load emits
nothing. -/
theorem claim4_load_wit :
    c4State.audio = some c4Media ∧ c4State.domPresent = true ∧
    ("new.mp3" : String) ≠ "" ∧
    loadM c4State (some "new.mp3") {} none =
      .ok (loadCore c4State c4Media "new.mp3" {},
        if ("new.mp3" : String) = c4Media.src then []
        else [.srcchangeEv "new.mp3"]) :=
  ⟨rfl, rfl, by decide,
    ((claim4_load c4State c4Media {} "new.mp3" rfl rfl).2.2 (by decide)).1⟩

/-- Claim C5 (corrected): `seek(targetSeconds)` is a no-op emitting nothing
when the element's duration is not finite; when the duration is a finite
nonnegative value and the target does not convert to NaN, the target is
clamped into [0, duration], the call is a no-op emitting nothing when the
clamped target strictly equals the current position, and otherwise sets the
position to the clamped target and emits exactly one `seek` event carrying the
previous position and the clamped target.  (A NaN target escapes the clamp:
see the counterexample.) -/
theorem claim5_seek (s : PlayerState) (a : MediaState) (t : JSNum)
    (ha : s.audio = some a) :
    (a.duration.isFiniteB = false → seekM s t = .ok (s, [])) ∧
    (∀ dq : ℚ, a.duration = .fin dq → 0 ≤ dq → t ≠ .nan →
      s.domPresent = true →
      ∃ q : ℚ, jsMax (.fin 0) (jsMin a.duration t) = .fin q ∧
        0 ≤ q ∧ q ≤ dq ∧
        (jsEqB a.currentTime (.fin q) = true → seekM s t = .ok (s, [])) ∧
        (jsEqB a.currentTime (.fin q) = false →
          seekM s t =
            .ok ({ s with audio := some { a with currentTime := .fin q } },
              [.seekEv a.currentTime (.fin q)]))) := by
  constructor
  · intro hf
    simp [seekM, ha, hf]
  · intro dq hdq hpos hnan hdom
    cases t with
    | nan => exact absurd rfl hnan
    | inf =>
      refine ⟨max 0 dq, by simp [hdq, jsMin, jsMax], le_max_left _ _,
        max_le hpos le_rfl, fun heq => ?_, fun heq => ?_⟩ <;>
        simp [seekM, ha, hdq, JSNum.isFiniteB, jsMin, jsMax, heq, hdom]
    | ninf =>
      refine ⟨0, by simp [hdq, jsMin, jsMax], le_refl 0, hpos,
        fun heq => ?_, fun heq => ?_⟩ <;>
        simp [seekM, ha, hdq, JSNum.isFiniteB, jsMin, jsMax, heq, hdom]
    | fin tq =>
      refine ⟨max 0 (min dq tq), by simp [hdq, jsMin, jsMax],
        le_max_left _ _, max_le hpos (le_trans (min_le_left _ _) le_rfl),
        fun heq => ?_, fun heq => ?_⟩ <;>
        simp [seekM, ha, hdq, JSNum.isFiniteB, jsMin, jsMax, heq, hdom]

/-- Witness for C5: seeking to 25 with duration 10 and position 0 clamps to 10
and emits one seek event. -/
theorem claim5_seek_wit :
    c5State.audio = some c5Media ∧ c5Media.duration = .fin 10 ∧
    (0 : ℚ) ≤ 10 ∧ (JSNum.fin 25 ≠ .nan) ∧ c5State.domPresent = true ∧
    (∃ q : ℚ, jsMax (.fin 0) (jsMin c5Media.duration (.fin 25)) = .fin q ∧
      0 ≤ q ∧ q ≤ 10 ∧
      (jsEqB c5Media.currentTime (.fin q) = true →
        seekM c5State (.fin 25) = .ok (c5State, [])) ∧
      (jsEqB c5Media.currentTime (.fin q) = false →
        seekM c5State (.fin 25) =
          .ok ({ c5State with
            audio := some { c5Media with currentTime := .fin q } },
            [.seekEv c5Media.currentTime (.fin q)]))) :=
  ⟨rfl, rfl, by norm_num, by decide, rfl,
    (claim5_seek c5State c5Media (.fin 25) rfl).2 10 rfl (by norm_num)
      (by decide) rfl⟩

/-- Counterexample for C5 as stated: with a finite duration of 10 and position
0, `seek(NaN)` is neither a silent no-op nor a clamped move — the computed
target `Math.max(0, Math.min(10, NaN))` is NaN, the `from === to` guard fails,
and the code stores NaN as the position and emits `seek` with a NaN target (in
a browser the `currentTime` assignment itself throws, since the IDL attribute
is a restricted double). -/
theorem claim5_seek_cex :
    jsMax (.fin 0) (jsMin (.fin 10) .nan) = .nan ∧
    seekM c5State .nan =
      .ok ({ c5State with audio := some { c5Media with currentTime := .nan } },
        [.seekEv (.fin 0) .nan]) := by
  constructor
  · rfl
  · with_unfolding_all rfl

/-- Claim C6 (confirmed): `setVolume(v)` is a silent no-op — no state change,
no error — when the argument does not convert to a finite number; otherwise
the value clamped into [0, 100] is divided by 100 and written to the element's
volume, and the element's muted flag is cleared exactly when the clamped value
is positive while the element was muted. -/
theorem claim6_setvolume (s : PlayerState) (v : JSNum) :
    (v.isFiniteB = false → setVolumeM s v = .ok (s, [])) ∧
    (∀ q : ℚ, v = .fin q → ∀ a, s.audio = some a →
      0 ≤ min 100 (max 0 q) ∧ min 100 (max 0 q) ≤ 100 ∧
      setVolumeM s v = .ok ({ s with audio := some { a with volume := min 100 (max 0 q) / 100, muted := if 0 < min 100 (max 0 q) ∧ a.muted then false else a.muted } }, []) ∧
      (0 < min 100 (max 0 q) → a.muted = true →
        (if 0 < min 100 (max 0 q) ∧ a.muted then false else a.muted) = false)) := by
  constructor
  · intro hf
    cases v with
    | fin q => simp [JSNum.isFiniteB] at hf
    | nan => rfl
    | inf => rfl
    | ninf => rfl
  · intro q hv a ha
    subst hv
    refine ⟨le_min (by norm_num) (le_max_left 0 q), min_le_left _ _, ?_, ?_⟩
    · simp [setVolumeM, clampNumber, ha]
    · intro hq hm
      simp [hq, hm]

/-- Witness for C6: `setVolume(50)` on a muted element sets the volume to 0.5
and clears the muted flag. -/
theorem claim6_setvolume_wit :
    (JSNum.fin 50 = JSNum.fin 50) ∧ c6State.audio = some c6Media ∧
    (0 ≤ min 100 (max 0 (50:ℚ)) ∧ min 100 (max 0 (50:ℚ)) ≤ 100 ∧
      setVolumeM c6State (.fin 50) = .ok ({ c6State with audio := some { c6Media with volume := min 100 (max 0 (50:ℚ)) / 100, muted := if 0 < min 100 (max 0 (50:ℚ)) ∧ c6Media.muted then false else c6Media.muted } }, []) ∧
      (0 < min 100 (max 0 (50:ℚ)) → c6Media.muted = true →
        (if 0 < min 100 (max 0 (50:ℚ)) ∧ c6Media.muted then false
         else c6Media.muted) = false)) :=
  ⟨rfl, rfl, (claim6_setvolume c6State (.fin 50)).2 50 rfl c6Media rfl⟩

theorem clampNumber_mem {v : JSNum} {lo hi c : ℚ} (hlh : lo ≤ hi)
    (h : clampNumber v lo hi = some c) : lo ≤ c ∧ c ≤ hi := by
  cases v with
  | fin q =>
    simp [clampNumber] at h
    subst h
    exact ⟨le_min hlh (le_max_left _ _), min_le_left _ _⟩
  | nan => simp [clampNumber] at h
  | inf => simp [clampNumber] at h
  | ninf => simp [clampNumber] at h

theorem applyField_mem {cur : ℚ} (raw : Option JSNum) {lo hi : ℚ}
    (hlh : lo ≤ hi) (h1 : lo ≤ cur) (h2 : cur ≤ hi) :
    lo ≤ applyField cur raw lo hi ∧ applyField cur raw lo hi ≤ hi := by
  cases raw with
  | none => exact ⟨h1, h2⟩
  | some v =>
    cases hc : clampNumber v lo hi with
    | none => simpa [applyField, hc] using ⟨h1, h2⟩
    | some c => simpa [applyField, hc] using clampNumber_mem hlh hc

theorem clampD_mem {v : JSNum} {lo hi fb : ℚ} (hlh : lo ≤ hi) (hfb1 : lo ≤ fb)
    (hfb2 : fb ≤ hi) :
    lo ≤ (clampNumber v lo hi).getD fb ∧ (clampNumber v lo hi).getD fb ≤ hi := by
  cases hc : clampNumber v lo hi with
  | none => simpa using ⟨hfb1, hfb2⟩
  | some c => simpa using clampNumber_mem hlh hc

theorem strOrDefault_ne_empty {raw : Option (Option String)} {cur dflt : String}
    (hc : cur ≠ "") (hd : dflt ≠ "") : strOrDefault raw cur dflt ≠ "" := by
  cases raw with
  | none => exact hc
  | some r =>
    cases r with
    | none => exact hd
    | some s =>
      by_cases ht : jsTrim s = "" <;> simp [strOrDefault, ht] <;> assumption

theorem setOptionsSwap_keeps (o : OptionsA) :
    (setOptionsSwap o).volume = o.volume ∧
    (setOptionsSwap o).seekStep = o.seekStep ∧
    (setOptionsSwap o).playbackRateStep = o.playbackRateStep ∧
    (setOptionsSwap o).theme = o.theme := by
  by_cases hsw : o.playbackRateMax < o.playbackRateMin
  · simp [setOptionsSwap, clampNumber, hsw]
  · simp [setOptionsSwap, clampNumber, hsw]

theorem setOptionsSwap_order (o : OptionsA) :
    (setOptionsSwap o).playbackRateMin ≤ (setOptionsSwap o).playbackRateMax ∧
    (setOptionsSwap o).playbackRateMin ≤ (setOptionsSwap o).playbackRate ∧
    (setOptionsSwap o).playbackRate ≤ (setOptionsSwap o).playbackRateMax := by
  by_cases hsw : o.playbackRateMax < o.playbackRateMin
  · simp [setOptionsSwap, clampNumber, hsw]
    exact le_of_lt hsw
  · simp [setOptionsSwap, clampNumber, hsw]
    exact not_lt.mp hsw

theorem setOptionsSwap_cases (o : OptionsA) :
    (o.playbackRateMax < o.playbackRateMin →
      (setOptionsSwap o).playbackRateMin = o.playbackRateMax ∧
      (setOptionsSwap o).playbackRateMax = o.playbackRateMin) ∧
    (¬ o.playbackRateMax < o.playbackRateMin →
      (setOptionsSwap o).playbackRateMin = o.playbackRateMin ∧
      (setOptionsSwap o).playbackRateMax = o.playbackRateMax) := by
  constructor <;> intro hsw <;> simp [setOptionsSwap, clampNumber, hsw]

theorem setOptionsSwap_range (o : OptionsA) {lo hi : ℚ}
    (h1 : lo ≤ o.playbackRateMin) (h2 : o.playbackRateMin ≤ hi)
    (h3 : lo ≤ o.playbackRateMax) (h4 : o.playbackRateMax ≤ hi) :
    lo ≤ (setOptionsSwap o).playbackRateMin ∧
    (setOptionsSwap o).playbackRateMin ≤ hi ∧
    lo ≤ (setOptionsSwap o).playbackRateMax ∧
    (setOptionsSwap o).playbackRateMax ≤ hi := by
  by_cases hsw : o.playbackRateMax < o.playbackRateMin
  · rcases (setOptionsSwap_cases o).1 hsw with ⟨e1, e2⟩
    rw [e1, e2]
    exact ⟨h3, h4, h1, h2⟩
  · rcases (setOptionsSwap_cases o).2 hsw with ⟨e1, e2⟩
    rw [e1, e2]
    exact ⟨h1, h2, h3, h4⟩

theorem san_fields (o : OptionsA) (p : Patch) :
    (setOptionsSan o p).volume = applyField o.volume p.volume 0 100 ∧
    (setOptionsSan o p).seekStep = applyField o.seekStep p.seekStep 1 120 ∧
    (setOptionsSan o p).playbackRateMin =
      applyField o.playbackRateMin p.playbackRateMin (1/5) 4 ∧
    (setOptionsSan o p).playbackRateMax =
      applyField o.playbackRateMax p.playbackRateMax (1/5) 4 ∧
    (setOptionsSan o p).playbackRateStep =
      applyField o.playbackRateStep p.playbackRateStep (1/100) 1 ∧
    (setOptionsSan o p).theme = o.theme :=
  ⟨rfl, rfl, rfl, rfl, rfl, rfl⟩

theorem next_fields (o : OptionsA) (p : Patch) :
    (setOptionsNext o p).volume = (setOptionsSwap (setOptionsSan o p)).volume ∧
    (setOptionsNext o p).seekStep =
      (setOptionsSwap (setOptionsSan o p)).seekStep ∧
    (setOptionsNext o p).playbackRateMin =
      (setOptionsSwap (setOptionsSan o p)).playbackRateMin ∧
    (setOptionsNext o p).playbackRateMax =
      (setOptionsSwap (setOptionsSan o p)).playbackRateMax ∧
    (setOptionsNext o p).playbackRate =
      (setOptionsSwap (setOptionsSan o p)).playbackRate ∧
    (setOptionsNext o p).playbackRateStep =
      (setOptionsSwap (setOptionsSan o p)).playbackRateStep ∧
    (setOptionsNext o p).theme =
      strOrDefault p.theme (setOptionsSwap (setOptionsSan o p)).theme "auto" :=
  ⟨rfl, rfl, rfl, rfl, rfl, rfl, rfl⟩

theorem setOptionsNext_valid (o : OptionsA) (p : Patch) (h : OptValidAm o) :
    OptValidAm (setOptionsNext o p) := by
  obtain ⟨hv0, hv1, hs0, hs1, hm0, hM1, hmm, hr0, hr1, hp0, hp1, ht⟩ := h
  obtain ⟨sv, ss, sm, sM, sp, sth⟩ := san_fields o p
  obtain ⟨nv, ns, nm, nM, nr, np, nth⟩ := next_fields o p
  obtain ⟨kv, ks, kp, kth⟩ := setOptionsSwap_keeps (setOptionsSan o p)
  obtain ⟨o1, o2, o3⟩ := setOptionsSwap_order (setOptionsSan o p)
  have hminS : 1/5 ≤ (setOptionsSan o p).playbackRateMin ∧
      (setOptionsSan o p).playbackRateMin ≤ 4 := by
    rw [sm]
    exact applyField_mem _ (by norm_num) hm0 (le_trans hmm hM1)
  have hmaxS : 1/5 ≤ (setOptionsSan o p).playbackRateMax ∧
      (setOptionsSan o p).playbackRateMax ≤ 4 := by
    rw [sM]
    exact applyField_mem _ (by norm_num) (le_trans hm0 hmm) hM1
  obtain ⟨r1, r2, r3, r4⟩ :=
    setOptionsSwap_range (setOptionsSan o p) hminS.1 hminS.2 hmaxS.1 hmaxS.2
  refine ⟨?_, ?_, ?_, ?_, ?_, ?_, ?_, ?_, ?_, ?_, ?_, ?_⟩
  · rw [nv, kv, sv]
    exact (applyField_mem _ (by norm_num) hv0 hv1).1
  · rw [nv, kv, sv]
    exact (applyField_mem _ (by norm_num) hv0 hv1).2
  · rw [ns, ks, ss]
    exact (applyField_mem _ (by norm_num) hs0 hs1).1
  · rw [ns, ks, ss]
    exact (applyField_mem _ (by norm_num) hs0 hs1).2
  · rw [nm]
    exact r1
  · rw [nM]
    exact r4
  · rw [nm, nM]
    exact o1
  · rw [nm, nr]
    exact o2
  · rw [nr, nM]
    exact o3
  · rw [np, kp, sp]
    exact (applyField_mem _ (by norm_num) hp0 hp1).1
  · rw [np, kp, sp]
    exact (applyField_mem _ (by norm_num) hp0 hp1).2
  · rw [nth]
    refine strOrDefault_ne_empty ?_ (by decide)
    rw [kth, sth]
    exact ht

theorem mergeOptions_fields (base : OptionsA) (ov : Patch) :
    (mergeOptions base ov).volume =
      (clampNumber (ov.volume.getD (.fin base.volume)) 0 100).getD base.volume ∧
    (mergeOptions base ov).seekStep =
      (clampNumber (ov.seekStep.getD (.fin base.seekStep)) 1 120).getD base.seekStep ∧
    (mergeOptions base ov).playbackRateStep =
      (clampNumber (ov.playbackRateStep.getD (.fin base.playbackRateStep))
        (1/100) 1).getD base.playbackRateStep ∧
    (mergeOptions base ov).theme =
      strOrDefault (some (ov.theme.getD (some base.theme))) base.theme base.theme ∧
    (mergeOptions base ov).playbackRateMin =
      (if (clampNumber (ov.playbackRateMax.getD (.fin base.playbackRateMax))
            (1/5) 4).getD base.playbackRateMax <
          (clampNumber (ov.playbackRateMin.getD (.fin base.playbackRateMin))
            (1/5) 4).getD base.playbackRateMin
       then (clampNumber (ov.playbackRateMax.getD (.fin base.playbackRateMax))
            (1/5) 4).getD base.playbackRateMax
       else (clampNumber (ov.playbackRateMin.getD (.fin base.playbackRateMin))
            (1/5) 4).getD base.playbackRateMin) ∧
    (mergeOptions base ov).playbackRateMax =
      (if (clampNumber (ov.playbackRateMax.getD (.fin base.playbackRateMax))
            (1/5) 4).getD base.playbackRateMax <
          (clampNumber (ov.playbackRateMin.getD (.fin base.playbackRateMin))
            (1/5) 4).getD base.playbackRateMin
       then (clampNumber (ov.playbackRateMin.getD (.fin base.playbackRateMin))
            (1/5) 4).getD base.playbackRateMin
       else (clampNumber (ov.playbackRateMax.getD (.fin base.playbackRateMax))
            (1/5) 4).getD base.playbackRateMax) ∧
    (mergeOptions base ov).playbackRate =
      (clampNumber (ov.playbackRate.getD (.fin base.playbackRate))
        (mergeOptions base ov).playbackRateMin
        (mergeOptions base ov).playbackRateMax).getD 1 :=
  ⟨rfl, rfl, rfl, rfl, rfl, rfl, rfl⟩

theorem mergeOptions_valid (ov : Patch) :
    OptValidMerge (mergeOptions DEFAULT_OPTIONS ov) := by
  obtain ⟨ev, es, ep, eth, em, eM, er⟩ := mergeOptions_fields DEFAULT_OPTIONS ov
  have hm0 : 1/5 ≤ (clampNumber (ov.playbackRateMin.getD
        (.fin DEFAULT_OPTIONS.playbackRateMin)) (1/5) 4).getD
        DEFAULT_OPTIONS.playbackRateMin ∧
      (clampNumber (ov.playbackRateMin.getD
        (.fin DEFAULT_OPTIONS.playbackRateMin)) (1/5) 4).getD
        DEFAULT_OPTIONS.playbackRateMin ≤ 4 :=
    clampD_mem (by norm_num) (by norm_num [DEFAULT_OPTIONS]) (by norm_num [DEFAULT_OPTIONS])
  have hM0 : 1/5 ≤ (clampNumber (ov.playbackRateMax.getD
        (.fin DEFAULT_OPTIONS.playbackRateMax)) (1/5) 4).getD
        DEFAULT_OPTIONS.playbackRateMax ∧
      (clampNumber (ov.playbackRateMax.getD
        (.fin DEFAULT_OPTIONS.playbackRateMax)) (1/5) 4).getD
        DEFAULT_OPTIONS.playbackRateMax ≤ 4 :=
    clampD_mem (by norm_num) (by norm_num [DEFAULT_OPTIONS]) (by norm_num [DEFAULT_OPTIONS])
  refine ⟨?_, ?_, ?_, ?_, ?_, ?_, ?_, ?_, ?_, ?_, ?_⟩
  · rw [ev]
    exact (clampD_mem (by norm_num) (by norm_num [DEFAULT_OPTIONS])
      (by norm_num [DEFAULT_OPTIONS])).1
  · rw [ev]
    exact (clampD_mem (by norm_num) (by norm_num [DEFAULT_OPTIONS])
      (by norm_num [DEFAULT_OPTIONS])).2
  · rw [es]
    exact (clampD_mem (by norm_num) (by norm_num [DEFAULT_OPTIONS])
      (by norm_num [DEFAULT_OPTIONS])).1
  · rw [es]
    exact (clampD_mem (by norm_num) (by norm_num [DEFAULT_OPTIONS])
      (by norm_num [DEFAULT_OPTIONS])).2
  · rw [em]
    split
    · exact hM0.1
    · exact hm0.1
  · rw [eM]
    split
    · exact hm0.2
    · exact hM0.2
  · rw [em, eM]
    split
    · rename_i hc
      exact le_of_lt hc
    · rename_i hc
      exact not_lt.mp hc
  · rw [er]
    cases hc : clampNumber (ov.playbackRate.getD (.fin DEFAULT_OPTIONS.playbackRate))
        (mergeOptions DEFAULT_OPTIONS ov).playbackRateMin
        (mergeOptions DEFAULT_OPTIONS ov).playbackRateMax with
    | none => exact Or.inr rfl
    | some c =>
      have hle : (mergeOptions DEFAULT_OPTIONS ov).playbackRateMin ≤
          (mergeOptions DEFAULT_OPTIONS ov).playbackRateMax := by
        rw [em, eM]
        split
        · rename_i h2
          exact le_of_lt h2
        · rename_i h2
          exact not_lt.mp h2
      exact Or.inl (by simpa using clampNumber_mem hle hc)
  · rw [ep]
    exact (clampD_mem (by norm_num) (by norm_num [DEFAULT_OPTIONS])
      (by norm_num [DEFAULT_OPTIONS])).1
  · rw [ep]
    exact (clampD_mem (by norm_num) (by norm_num [DEFAULT_OPTIONS])
      (by norm_num [DEFAULT_OPTIONS])).2
  · rw [eth]
    exact strOrDefault_ne_empty (by decide) (by decide)

/-- Claim C1 (corrected): for every partial update and every constructor
override (arguments modelled by their converted values, so the functions are
total and raise nothing), the resulting record keeps every numeric field in
its declared domain — volume in [0, 100], seekStep in [1, 120], the rate
bounds ordered inside [0.2, 4], the stored playbackRate inside the stored
bounds (for the constructor merge: unless the overriding rate did not convert,
in which case the fallback constant 1 is stored, possibly outside narrowed
bounds) — and theme is always a nonempty string: a present non-string theme
maps to "auto" and a present nonempty string theme is stored trimmed as-is,
not restricted to the set auto/light/dark. -/
theorem claim1_options_domain (o : OptionsA) (p : Patch) (ov : Patch)
    (h : OptValidAm o) :
    OptValidAm (setOptionsNext o p) ∧
    OptValidMerge (mergeOptions DEFAULT_OPTIONS ov) ∧
    (p.theme = some none → (setOptionsNext o p).theme = "auto") ∧
    (∀ s2, p.theme = some (some s2) → jsTrim s2 ≠ "" →
      (setOptionsNext o p).theme = jsTrim s2) := by
  refine ⟨setOptionsNext_valid o p h, mergeOptions_valid ov, ?_, ?_⟩
  · intro hth
    have e := (next_fields o p).2.2.2.2.2.2
    rw [e, hth]
    rfl
  · intro s2 hth htr
    have e := (next_fields o p).2.2.2.2.2.2
    rw [e, hth]
    simp [strOrDefault, htr]

/-- Witness for C1: the default record is valid and stays valid under the
off-catalogue theme update. -/
theorem claim1_options_domain_wit :
    OptValidAm DEFAULT_OPTIONS ∧
    OptValidAm (setOptionsNext DEFAULT_OPTIONS c1ThemePatch) :=
  ⟨of_decide_eq_true (by with_unfolding_all rfl),
    (claim1_options_domain DEFAULT_OPTIONS c1ThemePatch c1ThemePatch
      (of_decide_eq_true (by with_unfolding_all rfl))).1⟩

/-- Counterexample for C1 as stated: `setOptions({theme: "purple"})` stores
"purple", which is none of "auto", "light", "dark"; and the constructor merge
of `{playbackRateMin: 3, playbackRate: NaN}` stores the fallback rate 1 below
the stored minimum bound 2 (3 and the default maximum 2 were swapped), so the
rate is outside the stored bounds. -/
theorem claim1_theme_cex :
    ((setOptionsNext DEFAULT_OPTIONS c1ThemePatch).theme = "purple" ∧
      (setOptionsNext DEFAULT_OPTIONS c1ThemePatch).theme ≠ "auto" ∧
      (setOptionsNext DEFAULT_OPTIONS c1ThemePatch).theme ≠ "light" ∧
      (setOptionsNext DEFAULT_OPTIONS c1ThemePatch).theme ≠ "dark") ∧
    ((mergeOptions DEFAULT_OPTIONS c1RatePatch).playbackRate = 1 ∧
      (mergeOptions DEFAULT_OPTIONS c1RatePatch).playbackRateMin = 2 ∧
      ¬ (mergeOptions DEFAULT_OPTIONS c1RatePatch).playbackRateMin ≤
          (mergeOptions DEFAULT_OPTIONS c1RatePatch).playbackRate) :=
  of_decide_eq_true (by with_unfolding_all rfl)

/-- Claim C2 (confirmed): if after the per-field sanitization of a
`setOptions` update the minimum rate bound exceeds the maximum, the two bounds
are exchanged in the resulting record; in every result the bounds are ordered
and the stored playbackRate has been re-clamped into the (possibly swapped)
interval. -/
theorem claim2_rate_swap (o : OptionsA) (p : Patch) :
    ((setOptionsSan o p).playbackRateMax < (setOptionsSan o p).playbackRateMin →
      (setOptionsNext o p).playbackRateMin = (setOptionsSan o p).playbackRateMax ∧
      (setOptionsNext o p).playbackRateMax = (setOptionsSan o p).playbackRateMin) ∧
    (setOptionsNext o p).playbackRateMin ≤ (setOptionsNext o p).playbackRateMax ∧
    (setOptionsNext o p).playbackRateMin ≤ (setOptionsNext o p).playbackRate ∧
    (setOptionsNext o p).playbackRate ≤ (setOptionsNext o p).playbackRateMax := by
  obtain ⟨nv, ns, nm, nM, nr, np, nth⟩ := next_fields o p
  obtain ⟨o1, o2, o3⟩ := setOptionsSwap_order (setOptionsSan o p)
  refine ⟨fun hsw => ?_, ?_, ?_, ?_⟩
  · rw [nm, nM]
    exact (setOptionsSwap_cases (setOptionsSan o p)).1 hsw
  · rw [nm, nM]
    exact o1
  · rw [nm, nr]
    exact o2
  · rw [nr, nM]
    exact o3

/-- Witness for C2: raising only the minimum bound to 3 over the defaults
(maximum 2) triggers the swap, and the stored rate 1 is re-clamped to the new
minimum 2. -/
theorem claim2_rate_swap_wit :
    ((setOptionsSan DEFAULT_OPTIONS c2Patch).playbackRateMax <
      (setOptionsSan DEFAULT_OPTIONS c2Patch).playbackRateMin) ∧
    ((setOptionsNext DEFAULT_OPTIONS c2Patch).playbackRateMin =
        (setOptionsSan DEFAULT_OPTIONS c2Patch).playbackRateMax ∧
      (setOptionsNext DEFAULT_OPTIONS c2Patch).playbackRateMax =
        (setOptionsSan DEFAULT_OPTIONS c2Patch).playbackRateMin) :=
  ⟨of_decide_eq_true (by with_unfolding_all rfl),
    (claim2_rate_swap DEFAULT_OPTIONS c2Patch).1
      (of_decide_eq_true (by with_unfolding_all rfl))⟩

/-- Claim C9 (corrected): `formatTime(65) = "1:05"` and
`formatTime(-1) = "0:00"` hold; `formatRate(1.005)` (the binary64 value of the
literal, for which `Math.round(1.005 * 100)` is 100) renders as "1x" in the
rate-list variant, which strips trailing zeros, while the fixed-bounds
variant's `formatRate` keeps two decimals and renders "1.00x". -/
theorem claim9_formatters :
    formatTime (.fin 65) = "1:05" ∧
    formatTime (.fin (-1)) = "0:00" ∧
    formatRateB (.fin jsLit1005) = "1x" ∧
    formatRateA (.fin jsLit1005) = "1.00x" := by
  refine ⟨?_, ?_, ?_, ?_⟩ <;> with_unfolding_all rfl

/-- Counterexample for C9 as stated: the fixed-bounds variant's `formatRate`
applied to the binary64 value of 1.005 yields "1.00x", not the claimed
"1x". -/
theorem claim9_formatters_cex :
    formatRateA (.fin jsLit1005) ≠ "1x" :=
  of_decide_eq_true (by with_unfolding_all rfl)
